import Mathlib

/-!
Verification of the HTTP tools of the `intelligent_game_decision_engine`
repository: the Action Request Normalizer
(`GameActionExecutorTool._run` in `tools/game_action_executor_tool.py`)
and the Music Request Forwarder
(`MusicGeneratorTool._run` in `tools/music_generator_tool.py`).

The Python code is shallowly embedded:
* decoded JSON documents are the inductive `JsonVal` (JSON numbers are
  modelled as integers; the claims under study involve no floats);
* Python runtime values handed to the tool where the annotation says
  `str` are `PyValue` (either an actual string, or a value of some other
  runtime type carried by its `str()` rendering);
* exceptions of the `requests` layer and unclassified exceptions are the
  inductive `PyExc`; code that may raise returns `Except`;
* the standard-library JSON decoder `json.loads` is an oracle parameter
  `jl : String → Except String JsonVal` (returning the decoded document
  or the `str(e)` text of the `json.JSONDecodeError`), and the network
  call `requests.post` is an oracle parameter
  `net : String → JsonVal → Headers → Int → Except PyExc HttpResponse`
  taking exactly the arguments of the source call site
  (`url`, `json`, `headers`, `timeout`);
* Python semantics used by the source (`in` on decoded documents,
  subscription, `str()`, `json.dumps(..., indent=2)`) are embedded as
  explicit functions below, following CPython behaviour.
-/

/-- A decoded JSON document, as produced by Python `json.loads`.
Object fields are kept in document order; decoded dictionaries have
pairwise distinct keys. JSON numbers are modelled as integers. -/
inductive JsonVal where
  | null
  | bool (b : Bool)
  | num (n : Int)
  | str (s : String)
  | arr (elems : List JsonVal)
  | obj (fields : List (String × JsonVal))

/-- A Python runtime value passed for a parameter annotated `str`:
either an actual string, or a value of some other type, carried
abstractly by its `str()` rendering. -/
inductive PyValue where
  | pyStr (s : String)
  | pyOther (rendering : String)

/-- The string `str(v)` of a `PyValue`. -/
def pyValueStr : PyValue → String
  | .pyStr s => s
  | .pyOther r => r

/-- Exceptions relevant to both tools. The first four constructors are
the `requests.exceptions` hierarchy members the sources mention
(`ConnectionError`, `Timeout`, `HTTPError` as raised by
`raise_for_status`, and any other `RequestException`); `otherExc`
covers every exception that is not a `RequestException`, such as the
`TypeError` raised by `in` on a non-iterable. Each carries `str(e)`. -/
inductive PyExc where
  | connectionError (detail : String)
  | timeout (detail : String)
  | httpError (detail : String)
  | requestException (detail : String)
  | otherExc (detail : String)

/-- `requests.exceptions.ConnectionError`, `Timeout` and `HTTPError`
are all subclasses of `RequestException`; only `otherExc` is not. -/
def isRequestExc : PyExc → Bool
  | .connectionError _ => true
  | .timeout _ => true
  | .httpError _ => true
  | .requestException _ => true
  | .otherExc _ => false

/-- The text `str(e)` of an exception. -/
def excDetail : PyExc → String
  | .connectionError d => d
  | .timeout d => d
  | .httpError d => d
  | .requestException d => d
  | .otherExc d => d

/-- A `requests.Response`: status code, body text, reason phrase and
final URL (the latter two are consulted only by `raise_for_status`).
`response.json()` is modelled by applying the `json.loads` oracle to
`text`. -/
structure HttpResponse where
  status_code : Int
  text : String
  reason : String
  url : String

/-- HTTP headers, a Python `Dict[str, str]` in document order. -/
abbrev Headers := List (String × String)

/-- The network oracle: the behaviour of `requests.post` applied to
`url`, the decoded `json` body, `headers` and `timeout`; it either
returns a response or raises. -/
abbrev Net := String → JsonVal → Headers → Int → Except PyExc HttpResponse

/-- The JSON-decoding oracle: the behaviour of `json.loads`, returning
the decoded document or the `str(e)` of the `json.JSONDecodeError`. -/
abbrev Loads := String → Except String JsonVal

/-- A single-quote character, used in CPython exception texts. -/
def sglq : String := String.singleton (Char.ofNat 39)

/-- Whether `pat` occurs as a substring of `s` (Python `pat in s` for
strings); `pat` is nonempty at every use site. -/
def strContains (s pat : String) : Bool :=
  strContainsAux pat.toList s.toList
where
  strContainsAux (needle : List Char) : List Char → Bool
    | [] => needle.isEmpty
    | c :: rest => needle.isPrefixOf (c :: rest) || strContainsAux needle rest

/-- Whether `pre` is a leading segment of `s` (used only in statements
about message shapes, not by the embedded code). -/
def strStarts (s pre : String) : Bool :=
  pre.toList.isPrefixOf s.toList

/-- Python `key in v` for a decoded JSON document `v`: key membership
for a dict, element equality for a list, substring test for a string;
on a non-iterable (`int`, `bool`, `NoneType`) it raises `TypeError`. -/
def pyContains (v : JsonVal) (key : String) : Except PyExc Bool :=
  match v with
  | .obj fields => .ok (fields.any (fun p => p.fst == key))
  | .arr elems =>
      .ok (elems.any (fun x => match x with | .str s => s == key | _ => false))
  | .str s => .ok (strContains s key)
  | .num _ =>
      .error (.otherExc ("argument of type " ++ sglq ++ "int" ++ sglq ++ " is not iterable"))
  | .bool _ =>
      .error (.otherExc ("argument of type " ++ sglq ++ "bool" ++ sglq ++ " is not iterable"))
  | .null =>
      .error (.otherExc ("argument of type " ++ sglq ++ "NoneType" ++ sglq ++ " is not iterable"))

/-- Python `v[key]` with a string key on a decoded JSON document: dict
lookup for a dict (in the source this runs only after `key in v`
succeeded, so the key is present); `TypeError` on anything else. -/
def pySubscript (v : JsonVal) (key : String) : Except PyExc JsonVal :=
  match v with
  | .obj fields =>
      match fields.find? (fun p => p.fst == key) with
      | some p => .ok p.snd
      | none => .error (.otherExc (sglq ++ key ++ sglq))
  | .str _ =>
      .error (.otherExc ("string indices must be integers, not " ++ sglq ++ "str" ++ sglq))
  | .arr _ =>
      .error (.otherExc ("list indices must be integers or slices, not str"))
  | .num _ =>
      .error (.otherExc (sglq ++ "int" ++ sglq ++ " object is not subscriptable"))
  | .bool _ =>
      .error (.otherExc (sglq ++ "bool" ++ sglq ++ " object is not subscriptable"))
  | .null =>
      .error (.otherExc (sglq ++ "NoneType" ++ sglq ++ " object is not subscriptable"))

/-- CPython `repr` of a string: quoted with a single quote (or a double
quote when the text holds a single quote but no double quote), with
backslash escapes for the quote, backslashes and control characters. -/
def pyStrRepr (s : String) : String :=
  let hasSingle := s.toList.contains (Char.ofNat 39)
  let hasDouble := s.toList.contains (Char.ofNat 34)
  let q : Char := if hasSingle && !hasDouble then Char.ofNat 34 else Char.ofNat 39
  String.singleton q ++ String.join (s.toList.map (reprChar q)) ++ String.singleton q
where
  reprChar (q c : Char) : String :=
    if c = '\\' then "\\\\"
    else if c = q then "\\" ++ String.singleton q
    else if c = '\n' then "\\n"
    else if c = '\r' then "\\r"
    else if c = '\t' then "\\t"
    else String.singleton c

mutual

/-- CPython `repr` of a decoded JSON document (`None`/`True`/`False`,
decimal integers, quoted strings, `[...]` lists, `\x7b...\x7d` dicts
with `, ` and `: ` separators). -/
def pyRepr : JsonVal → String
  | .null => "None"
  | .bool true => "True"
  | .bool false => "False"
  | .num n => toString n
  | .str s => pyStrRepr s
  | .arr elems => "[" ++ pyReprElems elems ++ "]"
  | .obj fields => "\x7b" ++ pyReprFields fields ++ "\x7d"

/-- Comma-joined `repr`s of list elements. -/
def pyReprElems : List JsonVal → String
  | [] => ""
  | [x] => pyRepr x
  | x :: y :: rest => pyRepr x ++ ", " ++ pyReprElems (y :: rest)

/-- Comma-joined `repr`s of dict entries. -/
def pyReprFields : List (String × JsonVal) → String
  | [] => ""
  | [(k, v)] => pyStrRepr k ++ ": " ++ pyRepr v
  | (k, v) :: f :: rest => pyStrRepr k ++ ": " ++ pyRepr v ++ ", " ++ pyReprFields (f :: rest)

end

/-- Python `str()` of a decoded JSON document, as interpolated by the
f-strings of the source: the text itself for a string, `repr` for
everything else. -/
def pyStrOf (v : JsonVal) : String :=
  match v with
  | .str s => s
  | v => pyRepr v

/-- A lowercase hexadecimal digit. -/
def hexDigit (n : Nat) : Char :=
  if n < 10 then Char.ofNat (48 + n) else Char.ofNat (87 + n)

/-- Four lowercase hexadecimal digits, as in a JSON `\u` escape. -/
def hex4 (n : Nat) : String :=
  String.mk [hexDigit (n / 4096 % 16), hexDigit (n / 256 % 16),
             hexDigit (n / 16 % 16), hexDigit (n % 16)]

/-- The escaping CPython `json.dumps` (default `ensure_ascii=True`)
applies to one character of a string: keep printable ASCII, use the
short escapes for the quote, the backslash and common controls, and
`\u` escapes (with surrogate pairs beyond the basic plane) otherwise. -/
def jsonEscapeChar (c : Char) : String :=
  if c = '"' then "\\\""
  else if c = '\\' then "\\\\"
  else if c = '\n' then "\\n"
  else if c = '\r' then "\\r"
  else if c = '\t' then "\\t"
  else if c = Char.ofNat 8 then "\\b"
  else if c = Char.ofNat 12 then "\\f"
  else if 32 ≤ c.toNat && c.toNat ≤ 126 then String.singleton c
  else if c.toNat < 65536 then "\\u" ++ hex4 c.toNat
  else
    "\\u" ++ hex4 (55296 + (c.toNat - 65536) / 1024) ++
    "\\u" ++ hex4 (56320 + (c.toNat - 65536) % 1024)

/-- A JSON string literal for `s`, as written by `json.dumps`. -/
def jsonQuote (s : String) : String :=
  "\"" ++ String.join (s.toList.map jsonEscapeChar) ++ "\""

/-- `2 * lvl` spaces: the indentation of nesting level `lvl` under
`json.dumps(..., indent=2)`. -/
def indentOf (lvl : Nat) : String :=
  String.mk (List.replicate (2 * lvl) ' ')

mutual

/-- CPython `json.dumps(v, indent=2)` of the part of `v` at nesting
level `lvl`: scalars inline; each container entry on its own indented
line, separated by `,`, with the key separator `: `. -/
def jsonDumpIndent (lvl : Nat) : JsonVal → String
  | .null => "null"
  | .bool true => "true"
  | .bool false => "false"
  | .num n => toString n
  | .str s => jsonQuote s
  | .arr [] => "[]"
  | .arr (x :: xs) =>
      "[\n" ++ jsonDumpElems (lvl + 1) (x :: xs) ++ "\n" ++ indentOf lvl ++ "]"
  | .obj [] => "\x7b\x7d"
  | .obj (f :: fs) =>
      "\x7b\n" ++ jsonDumpFields (lvl + 1) (f :: fs) ++ "\n" ++ indentOf lvl ++ "\x7d"

/-- The lines of a nonempty JSON array under `indent=2`. -/
def jsonDumpElems (lvl : Nat) : List JsonVal → String
  | [] => ""
  | [x] => indentOf lvl ++ jsonDumpIndent lvl x
  | x :: y :: rest =>
      indentOf lvl ++ jsonDumpIndent lvl x ++ ",\n" ++ jsonDumpElems lvl (y :: rest)

/-- The lines of a nonempty JSON object under `indent=2`. -/
def jsonDumpFields (lvl : Nat) : List (String × JsonVal) → String
  | [] => ""
  | [(k, v)] => indentOf lvl ++ jsonQuote k ++ ": " ++ jsonDumpIndent lvl v
  | (k, v) :: f :: rest =>
      indentOf lvl ++ jsonQuote k ++ ": " ++ jsonDumpIndent lvl v ++ ",\n" ++
      jsonDumpFields lvl (f :: rest)

end

mutual

/-- CPython `json.dumps(v)` with default separators (`, ` and `: `),
as used by the Music Request Forwarder. -/
def jsonDumpCompact : JsonVal → String
  | .null => "null"
  | .bool true => "true"
  | .bool false => "false"
  | .num n => toString n
  | .str s => jsonQuote s
  | .arr elems => "[" ++ jsonDumpCompactElems elems ++ "]"
  | .obj fields => "\x7b" ++ jsonDumpCompactFields fields ++ "\x7d"

/-- Compact form of array elements. -/
def jsonDumpCompactElems : List JsonVal → String
  | [] => ""
  | [x] => jsonDumpCompact x
  | x :: y :: rest => jsonDumpCompact x ++ ", " ++ jsonDumpCompactElems (y :: rest)

/-- Compact form of object entries. -/
def jsonDumpCompactFields : List (String × JsonVal) → String
  | [] => ""
  | [(k, v)] => jsonQuote k ++ ": " ++ jsonDumpCompact v
  | (k, v) :: f :: rest =>
      jsonQuote k ++ ": " ++ jsonDumpCompact v ++ ", " ++ jsonDumpCompactFields (f :: rest)

end

/-!
## The Action Request Normalizer

Embedding of `GameActionExecutorTool._run`
(`src/intelligent_game_decision_engine/tools/game_action_executor_tool.py`,
lines 38-171). Every `return` statement of the source returns
`json.dumps(response_structure, indent=2)`, so the control flow is
embedded as a record-valued computation (`runBody`, wrapped by
`runRecord`), and `GameActionExecutorTool_run` applies the serializer
at the boundary. Exceptions escaping the `try` block carry the
`response_structure` as mutated up to the raise, since the `except`
handlers serialize that same dictionary after setting its
`error_message`.
-/

/-- The `response_structure` dictionary of the source (initialized at
lines 65-70 with this key order), i.e. the ActionResult of the spec. -/
structure ActionResult where
  success : Bool
  response_data : Option JsonVal
  error_message : Option String
  status_code : Option Int

/-- The initial `response_structure`. -/
def initResult : ActionResult :=
  { success := false, response_data := none, error_message := none, status_code := none }

/-- Lines 59-60: `if headers is None: headers = ...Content-Type...`. -/
def resolveHeaders : Option Headers → Headers
  | none => [("Content-Type", "application/json")]
  | some h => h

/-- Lines 61-62: `if timeout is None: timeout = 30`. -/
def resolveTimeout : Option Int → Int
  | none => 30
  | some t => t

/-- Line 74: `not api_endpoint or not isinstance(api_endpoint, str)`.
An empty string is falsy; any non-string value fails the `isinstance`
test (its own truthiness cannot rescue it). -/
def pyEndpointInvalid : PyValue → Bool
  | .pyStr s => s == ""
  | .pyOther _ => true

/-- Lines 113-141: the two structurally identical error branches for
4xx (`base` = Client error) and 5xx (`base` = Server error) status
codes: set `error_message` to `base`; try to decode the body, storing
it in `response_data` and appending the `message` or `error` field when
present (`JSONDecodeError` appends the raw text instead); a non-decode
exception (for example `TypeError` from `in` on a non-iterable decoded
body) escapes with the record as mutated so far. -/
def httpErrorBranch (jl : Loads) (base : String) (response : HttpResponse)
    (r1 : ActionResult) : Except (PyExc × ActionResult) ActionResult :=
  let r2 := { r1 with error_message := some base }
  match jl response.text with
  | .error _ => .ok { r2 with error_message := some (base ++ ": " ++ response.text) }
  | .ok error_details =>
    let r3 := { r2 with response_data := some error_details }
    match pyContains error_details "message" with
    | .error e => .error (e, r3)
    | .ok true =>
      match pySubscript error_details "message" with
      | .error e => .error (e, r3)
      | .ok v => .ok { r3 with error_message := some (base ++ ": " ++ pyStrOf v) }
    | .ok false =>
      match pyContains error_details "error" with
      | .error e => .error (e, r3)
      | .ok true =>
        match pySubscript error_details "error" with
        | .error e => .error (e, r3)
        | .ok v => .ok { r3 with error_message := some (base ++ ": " ++ pyStrOf v) }
      | .ok false => .ok r3

/-- Lines 72-151, the body of the `try` block: validate the endpoint
(line 74) and the payload (lines 79-87), issue the POST (lines 90-95),
record the status code (line 98) and classify the response by status
range (lines 101-151). An `Except.error` is an exception escaping the
`try` block, paired with `response_structure` as mutated so far. -/
def runBody (jl : Loads) (net : Net) (api_endpoint action_payload : PyValue)
    (headers : Headers) (timeout : Int) : Except (PyExc × ActionResult) ActionResult :=
  if pyEndpointInvalid api_endpoint then
    .ok { initResult with error_message := some "Invalid API endpoint provided" }
  else
    match action_payload with
    | .pyOther _ =>
      .ok { initResult with error_message := some "Action payload must be a JSON string" }
    | .pyStr payload =>
      match jl payload with
      | .error d =>
        .ok { initResult with error_message := some ("Invalid JSON in action_payload: " ++ d) }
      | .ok action_data =>
        match net (pyValueStr api_endpoint) action_data headers timeout with
        | .error e => .error (e, initResult)
        | .ok response =>
          let r1 := { initResult with status_code := some response.status_code }
          if 200 ≤ response.status_code ∧ response.status_code ≤ 299 then
            let r2 := { r1 with success := true }
            match jl response.text with
            | .ok v => .ok { r2 with response_data := some v }
            | .error _ => .ok { r2 with response_data := some (.str response.text) }
          else if 400 ≤ response.status_code ∧ response.status_code ≤ 499 then
            httpErrorBranch jl
              ("Client error (HTTP " ++ toString response.status_code ++ ")") response r1
          else if 500 ≤ response.status_code ∧ response.status_code ≤ 599 then
            httpErrorBranch jl
              ("Server error (HTTP " ++ toString response.status_code ++ ")") response r1
          else
            let r2 := { r1 with error_message := some ("Unexpected HTTP status code: " ++ toString response.status_code) }
            match jl response.text with
            | .ok v => .ok { r2 with response_data := some v }
            | .error _ => .ok { r2 with response_data := some (.str response.text) }

/-- Lines 153-171, the `except` clauses, tried in source order:
`ConnectionError`, `Timeout`, `RequestException` (which `HTTPError`
subclasses), then `Exception`; each overwrites `error_message` of the
record as mutated up to the raise. -/
def handleExc (e : PyExc) (api_endpoint : PyValue) (timeout : Int)
    (r : ActionResult) : ActionResult :=
  match e with
  | .connectionError d =>
    { r with error_message := some ("Connection error: Unable to connect to " ++ pyValueStr api_endpoint ++ ". " ++ d) }
  | .timeout d =>
    { r with error_message := some ("Request timeout: The request to " ++ pyValueStr api_endpoint ++ " timed out after " ++ toString timeout ++ " seconds. " ++ d) }
  | .httpError d => { r with error_message := some ("Request error: " ++ d) }
  | .requestException d => { r with error_message := some ("Request error: " ++ d) }
  | .otherExc d => { r with error_message := some ("Unexpected error: " ++ d) }

/-- The `response_structure` the tool serializes on return: the result
of the `try` body, or of the matching `except` clause. -/
def runRecord (jl : Loads) (net : Net) (api_endpoint action_payload : PyValue)
    (headers : Option Headers) (timeout : Option Int) : ActionResult :=
  match runBody jl net api_endpoint action_payload
      (resolveHeaders headers) (resolveTimeout timeout) with
  | .ok r => r
  | .error (e, r) => handleExc e api_endpoint (resolveTimeout timeout) r

/-- `json.dumps(response_structure, indent=2)`: the dictionary holds
the four keys in their insertion order from lines 65-70. -/
def dumpsActionResult (r : ActionResult) : String :=
  jsonDumpIndent 0 (.obj
    [("success", .bool r.success),
     ("response_data", r.response_data.getD .null),
     ("error_message", (r.error_message.map .str).getD .null),
     ("status_code", (r.status_code.map .num).getD .null)])

/-- Complete embedding of `GameActionExecutorTool._run`: every return
site of the source returns `json.dumps(response_structure, indent=2)`,
applied here at the boundary of the same control flow. -/
def GameActionExecutorTool_run (jl : Loads) (net : Net)
    (api_endpoint action_payload : PyValue)
    (headers : Option Headers) (timeout : Option Int) : String :=
  match runBody jl net api_endpoint action_payload
      (resolveHeaders headers) (resolveTimeout timeout) with
  | .ok r => dumpsActionResult r
  | .error (e, r) => dumpsActionResult (handleExc e api_endpoint (resolveTimeout timeout) r)

/-!
## The Music Request Forwarder

Embedding of `MusicGeneratorTool._run`
(`src/intelligent_game_decision_engine/tools/music_generator_tool.py`,
lines 29-43), together with the behaviour of
`requests.Response.raise_for_status` that it invokes.
-/

/-- `GAME_DESCRIPTION` of `music_generator_tool.py`, line 8. -/
def GAME_DESCRIPTION : String := "office simulator"

/-- The fixed music endpoint URL (line 32). -/
def musicUrl : String := "https://us-central1-llama-hack.cloudfunctions.net/generate-music"

/-- The fixed request body (lines 33-36). -/
def musicBody (game_state : String) : JsonVal :=
  .obj [("game_description", .str GAME_DESCRIPTION), ("game_state", .str game_state)]

/-- `requests.Response.raise_for_status`: raises `HTTPError` with the
message `<code> Client Error: <reason> for url: <url>` for status codes
400-499, `<code> Server Error: ...` for 500-599, and returns normally
otherwise. -/
def raiseForStatus (resp : HttpResponse) : Except PyExc Unit :=
  if 400 ≤ resp.status_code ∧ resp.status_code ≤ 499 then
    .error (.httpError (toString resp.status_code ++ " Client Error: " ++ resp.reason ++ " for url: " ++ resp.url))
  else if 500 ≤ resp.status_code ∧ resp.status_code ≤ 599 then
    .error (.httpError (toString resp.status_code ++ " Server Error: " ++ resp.reason ++ " for url: " ++ resp.url))
  else
    .ok ()

/-- Lines 30-41, the body of the `try` block: POST the fixed payload
to the fixed endpoint with a 60 second timeout, call
`raise_for_status`, and return the raw body text. -/
def musicTryBody (net : Net) (game_state : String) : Except PyExc String :=
  match net musicUrl (musicBody game_state) [("Content-Type", "application/json")] 60 with
  | .error e => .error e
  | .ok response =>
    match raiseForStatus response with
    | .error e => .error e
    | .ok _ => .ok response.text

/-- Complete embedding of `MusicGeneratorTool._run`: the single
`except requests.exceptions.RequestException` clause turns any
requests-level exception into the string
`json.dumps(\x7b"error": str(e)\x7d)`; an exception outside that
hierarchy propagates to the caller (an `Except.error` result). -/
def MusicGeneratorTool_run (net : Net) (game_state : String) : Except PyExc String :=
  match musicTryBody net game_state with
  | .ok s => .ok s
  | .error e =>
    if isRequestExc e then .ok (jsonDumpCompact (.obj [("error", .str (excDetail e))]))
    else .error e

/-!
## Spec-side definitions

`specAppendedMessage` transcribes the wording of the spec (section 4.1,
"Appension rule") for comparison with the code: starting from the base
message of the 4xx/5xx row, append `": <message>"` when the parsed
error body has a `message` field, else `": <error>"` when it has an
`error` field, else `": <raw text>"` when the body is not parseable as
JSON; a parsed body without those fields appends nothing. -/
def specAppendedMessage (base : String) (parsed : Except String JsonVal)
    (text : String) : String :=
  match parsed with
  | .error _ => base ++ ": " ++ text
  | .ok (.obj fields) =>
    match fields.find? (fun p => p.fst == "message") with
    | some p => base ++ ": " ++ pyStrOf p.snd
    | none =>
      match fields.find? (fun p => p.fst == "error") with
      | some p => base ++ ": " ++ pyStrOf p.snd
      | none => base
  | .ok _ => base

/-!
## Concrete oracles for witnesses and counterexamples

A deterministic `json.loads` oracle covering the body texts used in the
concrete scenarios (everything else is reported unparseable with the
CPython detail text), and mocked network outcomes.
-/

/-- Body text `\x7b"message":"not found"\x7d` of the 404 scenario of
the spec. -/
def notFoundText : String := "\x7b\"message\":\"not found\"\x7d"

/-- Body text `\x7b"ok":true\x7d` of a 200 scenario. -/
def okBodyText : String := "\x7b\"ok\":true\x7d"

/-- A deterministic decoding oracle agreeing with CPython `json.loads`
on the handful of body texts the concrete scenarios use. -/
def mockLoads : Loads := fun s =>
  if s = "\x7b\x7d" then .ok (.obj [])
  else if s = "5" then .ok (.num 5)
  else if s = notFoundText then .ok (.obj [("message", .str "not found")])
  else if s = okBodyText then .ok (.obj [("ok", .bool true)])
  else .error "Expecting value: line 1 column 1 (char 0)"

/-- A mocked 200 response with JSON body `\x7b"ok":true\x7d`. -/
def net200 : Net := fun _ _ _ _ => .ok ⟨200, okBodyText, "OK", "http://game"⟩

/-- A mocked 404 response with body `\x7b"message":"not found"\x7d`. -/
def net404msg : Net := fun _ _ _ _ => .ok ⟨404, notFoundText, "Not Found", "http://game"⟩

/-- A mocked 404 response whose body is the JSON number `5`. -/
def net404num : Net := fun _ _ _ _ => .ok ⟨404, "5", "Not Found", "http://game"⟩

/-- A mocked 503 response with the non-JSON body `down`. -/
def net503down : Net := fun _ _ _ _ => .ok ⟨503, "down", "Service Unavailable", "http://game"⟩

/-- A mocked network that raises `requests.exceptions.Timeout`. -/
def netTimeout : Net := fun _ _ _ _ => .error (.timeout "Read timed out.")

/-- A mocked 404 response from the music endpoint. -/
def netMusic404 : Net := fun _ _ _ _ => .ok ⟨404, "nf", "NOT FOUND", musicUrl⟩

/-- Two successive invocations of the normalizer with the same inputs
against the same deterministic oracles. The source `_run` writes only
the local `response_structure`; it reads and writes no module, class or
instance state, so the embedding is a pure function of its arguments
and the second call starts from the same (unchanged) world. -/
def callNormalizerTwice (jl : Loads) (net : Net) (ep pay : PyValue)
    (hs : Option Headers) (tmo : Option Int) : String × String :=
  (GameActionExecutorTool_run jl net ep pay hs tmo,
   GameActionExecutorTool_run jl net ep pay hs tmo)

/-!
## Helper lemmas
-/

/-- Membership by `any` agrees with the success of `find?` under the
same predicate. -/
theorem list_any_eq_find_isSome (fs : List (String × JsonVal)) (k : String) :
    fs.any (fun p => p.fst == k) = (fs.find? (fun p => p.fst == k)).isSome := by
  induction fs with
  | nil => rfl
  | cons p rest ih =>
    cases h : p.fst == k <;> simp [List.any_cons, List.find?_cons, h, ih]

/-- The endpoint check passes exactly on nonempty strings. -/
theorem pyEndpointInvalid_pyStr_false (s : String) (h : s ≠ "") :
    pyEndpointInvalid (.pyStr s) = false := by
  simpa [pyEndpointInvalid] using h

/-!
## Claim theorems
-/

/-- C7: for an empty-string endpoint, or any non-string endpoint value,
the normalizer returns success=false with error message exactly
"Invalid API endpoint provided", null status code (and null response
data), and the result does not depend on the network oracle at all
(no network call is attempted): it is the same for any two networks. -/
theorem C7_invalid_endpoint (jl : Loads) (net net2 : Net) (ep pay : PyValue)
    (hs : Option Headers) (tmo : Option Int)
    (hep : ep = .pyStr "" ∨ ∃ r, ep = .pyOther r) :
    runRecord jl net ep pay hs tmo =
      { success := false, response_data := none,
        error_message := some "Invalid API endpoint provided", status_code := none } ∧
    runRecord jl net ep pay hs tmo = runRecord jl net2 ep pay hs tmo := by
  have h : pyEndpointInvalid ep = true := by
    rcases hep with h | ⟨r, h⟩ <;> subst h <;> rfl
  constructor <;> simp [runRecord, runBody, h, initResult]

/-- C7 witness: the empty endpoint, evaluated against two different
mocked networks (a 200 network and a raising one). -/
theorem C7_invalid_endpoint_witness :
    ((PyValue.pyStr "") = .pyStr "" ∨ ∃ r, (PyValue.pyStr "") = .pyOther r) ∧
    (runRecord mockLoads net200 (.pyStr "") (.pyStr "\x7b\x7d") none none =
      { success := false, response_data := none,
        error_message := some "Invalid API endpoint provided", status_code := none } ∧
     runRecord mockLoads net200 (.pyStr "") (.pyStr "\x7b\x7d") none none =
       runRecord mockLoads netTimeout (.pyStr "") (.pyStr "\x7b\x7d") none none) :=
  ⟨Or.inl rfl,
   C7_invalid_endpoint mockLoads net200 netTimeout (.pyStr "") (.pyStr "\x7b\x7d")
     none none (Or.inl rfl)⟩

/-- C8: for every payload string rejected by the JSON decoder, the
normalizer returns success=false, null status code, null response data
and the message "Invalid JSON in action_payload: " followed by the
decode error detail, independently of the network oracle (no network
call is attempted). -/
theorem C8_invalid_json_payload (jl : Loads) (net net2 : Net) (ep pay d : String)
    (hs : Option Headers) (tmo : Option Int)
    (hep : ep ≠ "") (hpay : jl pay = .error d) :
    runRecord jl net (.pyStr ep) (.pyStr pay) hs tmo =
      { success := false, response_data := none,
        error_message := some ("Invalid JSON in action_payload: " ++ d),
        status_code := none } ∧
    runRecord jl net (.pyStr ep) (.pyStr pay) hs tmo =
      runRecord jl net2 (.pyStr ep) (.pyStr pay) hs tmo := by
  have h := pyEndpointInvalid_pyStr_false ep hep
  constructor <;> simp [runRecord, runBody, h, hpay, initResult]

/-- C8 witness: the unparseable payload "nope" against two different
mocked networks. -/
theorem C8_invalid_json_payload_witness :
    ("http://game" : String) ≠ "" ∧
    mockLoads "nope" = .error "Expecting value: line 1 column 1 (char 0)" ∧
    (runRecord mockLoads net200 (.pyStr "http://game") (.pyStr "nope") none none =
      { success := false, response_data := none,
        error_message := some ("Invalid JSON in action_payload: " ++
          "Expecting value: line 1 column 1 (char 0)"),
        status_code := none } ∧
     runRecord mockLoads net200 (.pyStr "http://game") (.pyStr "nope") none none =
       runRecord mockLoads netTimeout (.pyStr "http://game") (.pyStr "nope") none none) :=
  ⟨by decide, rfl,
   C8_invalid_json_payload mockLoads net200 netTimeout "http://game" "nope"
     "Expecting value: line 1 column 1 (char 0)" none none (by decide) rfl⟩

/-- C10: a non-string action payload is rejected before any parse or
network call with exactly "Action payload must be a JSON string",
success=false, null status code and null response data, independently
of the network oracle. -/
theorem C10_nonstring_payload (jl : Loads) (net net2 : Net) (ep r : String)
    (hs : Option Headers) (tmo : Option Int) (hep : ep ≠ "") :
    runRecord jl net (.pyStr ep) (.pyOther r) hs tmo =
      { success := false, response_data := none,
        error_message := some "Action payload must be a JSON string",
        status_code := none } ∧
    runRecord jl net (.pyStr ep) (.pyOther r) hs tmo =
      runRecord jl net2 (.pyStr ep) (.pyOther r) hs tmo := by
  have h := pyEndpointInvalid_pyStr_false ep hep
  constructor <;> simp [runRecord, runBody, h, initResult]

/-- C10 witness: the integer payload `5` (a non-string runtime value)
against two different mocked networks. -/
theorem C10_nonstring_payload_witness :
    ("http://game" : String) ≠ "" ∧
    (runRecord mockLoads net200 (.pyStr "http://game") (.pyOther "5") none none =
      { success := false, response_data := none,
        error_message := some "Action payload must be a JSON string",
        status_code := none } ∧
     runRecord mockLoads net200 (.pyStr "http://game") (.pyOther "5") none none =
       runRecord mockLoads netTimeout (.pyStr "http://game") (.pyOther "5") none none) :=
  ⟨by decide,
   C10_nonstring_payload mockLoads net200 netTimeout "http://game" "5" none none (by decide)⟩

/-- C9: the normalizer is deterministic and stateless across calls;
the source reads and writes no state outside the local
`response_structure`, so its embedding is a pure function of its
arguments, and two successive invocations with identical inputs against
the same deterministic oracles produce identical serialized results. -/
theorem C9_deterministic_stateless (jl : Loads) (net : Net) (ep pay : PyValue)
    (hs : Option Headers) (tmo : Option Int) :
    (callNormalizerTwice jl net ep pay hs tmo).fst =
      (callNormalizerTwice jl net ep pay hs tmo).snd := rfl

/-- C5: for every input (string or non-string endpoint and payload, any
headers and timeout) and every network outcome, including every raised
exception, the normalizer returns normally and its return value is the
pretty-printed JSON serialization of an ActionResult record. -/
theorem C5_always_serialized_result (jl : Loads) (net : Net) (ep pay : PyValue)
    (hs : Option Headers) (tmo : Option Int) :
    ∃ r : ActionResult,
      GameActionExecutorTool_run jl net ep pay hs tmo = dumpsActionResult r := by
  rcases h : runBody jl net ep pay (resolveHeaders hs) (resolveTimeout tmo) with ⟨e, r⟩ | r
  · exact ⟨handleExc e ep (resolveTimeout tmo) r, by simp [GameActionExecutorTool_run, h]⟩
  · exact ⟨r, by simp [GameActionExecutorTool_run, h]⟩

/-- C2: for a valid (nonempty string) endpoint, a payload string that
decodes as JSON, and a response with a 2xx status, the normalizer
returns success=true, a null error message, the response status code,
and the decoded response body (or the raw body text when the body is
not JSON). -/
theorem C2_success_2xx (jl : Loads) (net : Net) (ep pay : String)
    (hs : Option Headers) (tmo : Option Int) (v : JsonVal) (resp : HttpResponse)
    (hep : ep ≠ "") (hpay : jl pay = .ok v)
    (hnet : net ep v (resolveHeaders hs) (resolveTimeout tmo) = .ok resp)
    (hcode : 200 ≤ resp.status_code ∧ resp.status_code ≤ 299) :
    runRecord jl net (.pyStr ep) (.pyStr pay) hs tmo =
      { success := true,
        response_data := some (match jl resp.text with
          | .ok w => w
          | .error _ => .str resp.text),
        error_message := none,
        status_code := some resp.status_code } := by
  have h := pyEndpointInvalid_pyStr_false ep hep
  unfold runRecord runBody
  rw [h]
  simp only [Bool.false_eq_true, if_false, hpay, pyValueStr, hnet, if_pos hcode]
  cases hjt : jl resp.text <;> simp [initResult, hjt]

/-- C2 witness: a mocked 200 response with JSON body. -/
theorem C2_success_2xx_witness :
    ("http://game" : String) ≠ "" ∧
    mockLoads "\x7b\x7d" = .ok (.obj []) ∧
    runRecord mockLoads net200 (.pyStr "http://game") (.pyStr "\x7b\x7d") none none =
      { success := true,
        response_data := some (.obj [("ok", .bool true)]),
        error_message := none,
        status_code := some 200 } :=
  ⟨by decide, rfl,
   C2_success_2xx mockLoads net200 "http://game" "\x7b\x7d" none none (.obj [])
     ⟨200, okBodyText, "OK", "http://game"⟩ (by decide) rfl rfl (by decide)⟩

/-- C3: when the POST call itself raises (connection failure, timeout,
any other requests-level failure, or an unclassified exception), the
normalizer returns success=false, a null status code, null response
data, and an error message prefixed according to the failure kind, with
the endpoint and the resolved timeout value interpolated where the
source does. -/
theorem C3_transport_failure (jl : Loads) (net : Net) (ep pay : String)
    (hs : Option Headers) (tmo : Option Int) (v : JsonVal) (e : PyExc)
    (hep : ep ≠ "") (hpay : jl pay = .ok v)
    (hnet : net ep v (resolveHeaders hs) (resolveTimeout tmo) = .error e) :
    runRecord jl net (.pyStr ep) (.pyStr pay) hs tmo =
      { success := false, response_data := none,
        error_message := some (match e with
          | .connectionError d => "Connection error: Unable to connect to " ++ ep ++ ". " ++ d
          | .timeout d => "Request timeout: The request to " ++ ep ++ " timed out after " ++ toString (resolveTimeout tmo) ++ " seconds. " ++ d
          | .httpError d => "Request error: " ++ d
          | .requestException d => "Request error: " ++ d
          | .otherExc d => "Unexpected error: " ++ d),
        status_code := none } := by
  have h := pyEndpointInvalid_pyStr_false ep hep
  unfold runRecord runBody
  rw [h]
  simp only [Bool.false_eq_true, if_false, hpay, pyValueStr, hnet]
  cases e <;> simp [handleExc, pyValueStr, initResult]

/-- C3 witness: a mocked `requests.exceptions.Timeout` with a
configured timeout of 7 seconds. -/
theorem C3_transport_failure_witness :
    ("http://game" : String) ≠ "" ∧
    netTimeout "http://game" (.obj []) (resolveHeaders none) (resolveTimeout (some 7)) =
      .error (.timeout "Read timed out.") ∧
    runRecord mockLoads netTimeout (.pyStr "http://game") (.pyStr "\x7b\x7d") none (some 7) =
      { success := false, response_data := none,
        error_message := some "Request timeout: The request to http://game timed out after 7 seconds. Read timed out.",
        status_code := none } :=
  ⟨by decide, rfl,
   C3_transport_failure mockLoads netTimeout "http://game" "\x7b\x7d" none (some 7)
     (.obj []) (.timeout "Read timed out.") (by decide) rfl rfl⟩

/-- When the error body fails to decode, or decodes to a JSON object,
the shared 4xx/5xx branch returns normally and produces exactly the
message of the spec appension rule, storing the decoded body (when
any) in `response_data`. -/
theorem httpErrorBranch_spec (jl : Loads) (base : String) (resp : HttpResponse)
    (r1 : ActionResult)
    (hbody : (∃ d, jl resp.text = .error d) ∨ (∃ fs, jl resp.text = .ok (.obj fs))) :
    httpErrorBranch jl base resp r1 =
      .ok { r1 with
        response_data := match jl resp.text with
          | .ok w => some w
          | .error _ => r1.response_data,
        error_message := some (specAppendedMessage base (jl resp.text) resp.text) } := by
  rcases hbody with ⟨d, hd⟩ | ⟨fs, hfs⟩
  · simp [httpErrorBranch, hd, specAppendedMessage]
  · simp only [httpErrorBranch, hfs, pyContains, specAppendedMessage]
    rw [list_any_eq_find_isSome]
    cases hfind : fs.find? (fun p => p.fst == "message") with
    | some p => simp [hfind, pySubscript]
    | none =>
      simp only [hfind, Option.isSome_none]
      rw [list_any_eq_find_isSome]
      cases hfind2 : fs.find? (fun p => p.fst == "error") with
      | some p => simp [hfind2, pySubscript]
      | none => simp [hfind2]

/-- C1 (amended): for a 4xx or 5xx response whose body either fails to
decode as JSON or decodes to a JSON object, the normalizer returns
success=false with the recorded status code and an error message that
starts with "Client error (HTTP code)" or "Server error (HTTP code)"
and follows the spec appension rule (message field, else error field,
else the raw text of an undecodable body). The restriction on the
decoded body is necessary: see the counterexample, where a decodable
non-object body makes the field test raise and the result carries an
"Unexpected error" message instead. -/
theorem C1_amended_http_error (jl : Loads) (net : Net) (ep pay : String)
    (hs : Option Headers) (tmo : Option Int) (v : JsonVal) (resp : HttpResponse)
    (hep : ep ≠ "") (hpay : jl pay = .ok v)
    (hnet : net ep v (resolveHeaders hs) (resolveTimeout tmo) = .ok resp)
    (hcode : (400 ≤ resp.status_code ∧ resp.status_code ≤ 499) ∨
             (500 ≤ resp.status_code ∧ resp.status_code ≤ 599))
    (hbody : (∃ d, jl resp.text = .error d) ∨ (∃ fs, jl resp.text = .ok (.obj fs))) :
    runRecord jl net (.pyStr ep) (.pyStr pay) hs tmo =
      { success := false,
        response_data := match jl resp.text with
          | .ok w => some w
          | .error _ => none,
        error_message := some (specAppendedMessage
          ((if 400 ≤ resp.status_code ∧ resp.status_code ≤ 499 then "Client error (HTTP "
            else "Server error (HTTP ") ++ toString resp.status_code ++ ")")
          (jl resp.text) resp.text),
        status_code := some resp.status_code } := by
  have h := pyEndpointInvalid_pyStr_false ep hep
  have hrb : runBody jl net (.pyStr ep) (.pyStr pay)
      (resolveHeaders hs) (resolveTimeout tmo) =
      .ok { success := false,
            response_data := match jl resp.text with
              | .ok w => some w
              | .error _ => none,
            error_message := some (specAppendedMessage
              ((if 400 ≤ resp.status_code ∧ resp.status_code ≤ 499 then "Client error (HTTP "
                else "Server error (HTTP ") ++ toString resp.status_code ++ ")")
              (jl resp.text) resp.text),
            status_code := some resp.status_code } := by
    unfold runBody
    rw [h]
    simp only [Bool.false_eq_true, if_false, hpay, pyValueStr, hnet]
    rcases hcode with ⟨h1, h2⟩ | ⟨h1, h2⟩
    · rw [if_neg (by omega : ¬(200 ≤ resp.status_code ∧ resp.status_code ≤ 299)),
         if_pos (⟨h1, h2⟩ : 400 ≤ resp.status_code ∧ resp.status_code ≤ 499),
         httpErrorBranch_spec jl _ resp _ hbody,
         if_pos (⟨h1, h2⟩ : 400 ≤ resp.status_code ∧ resp.status_code ≤ 499)]
      cases hjt : jl resp.text <;> simp [initResult, hjt]
    · rw [if_neg (by omega : ¬(200 ≤ resp.status_code ∧ resp.status_code ≤ 299)),
         if_neg (by omega : ¬(400 ≤ resp.status_code ∧ resp.status_code ≤ 499)),
         if_pos (⟨h1, h2⟩ : 500 ≤ resp.status_code ∧ resp.status_code ≤ 599),
         httpErrorBranch_spec jl _ resp _ hbody,
         if_neg (by omega : ¬(400 ≤ resp.status_code ∧ resp.status_code ≤ 499))]
      cases hjt : jl resp.text <;> simp [initResult, hjt]
  simp [runRecord, hrb]

/-- C1 counterexample: a 404 response whose body is the valid JSON
number `5`. The claim quantifies over every 4xx response and demands a
message beginning "Client error (HTTP 404)", but the source evaluates
`"message" in 5`, which raises `TypeError`; the outer handler then
overwrites the message with "Unexpected error: ...", while keeping the
already-recorded status code and response data. -/
theorem C1_counterexample :
    (runRecord mockLoads net404num (.pyStr "http://game") (.pyStr "\x7b\x7d") none none).error_message =
      some ("Unexpected error: argument of type " ++ sglq ++ "int" ++ sglq ++ " is not iterable") ∧
    strStarts
      ((runRecord mockLoads net404num (.pyStr "http://game") (.pyStr "\x7b\x7d") none none).error_message.getD "")
      "Client error" = false ∧
    (runRecord mockLoads net404num (.pyStr "http://game") (.pyStr "\x7b\x7d") none none).status_code = some 404 :=
  ⟨rfl, rfl, rfl⟩

/-- C1 witness: the two scenarios named by the claim. A mocked 404
with body `\x7b"message":"not found"\x7d` yields exactly
"Client error (HTTP 404): not found", and a mocked 503 with the
non-JSON body `down` yields exactly "Server error (HTTP 503): down". -/
theorem C1_amended_http_error_witness :
    ("http://game" : String) ≠ "" ∧
    runRecord mockLoads net404msg (.pyStr "http://game") (.pyStr "\x7b\x7d") none none =
      { success := false,
        response_data := some (.obj [("message", .str "not found")]),
        error_message := some "Client error (HTTP 404): not found",
        status_code := some 404 } ∧
    runRecord mockLoads net503down (.pyStr "http://game") (.pyStr "\x7b\x7d") none none =
      { success := false,
        response_data := none,
        error_message := some "Server error (HTTP 503): down",
        status_code := some 503 } :=
  ⟨by decide,
   C1_amended_http_error mockLoads net404msg "http://game" "\x7b\x7d" none none (.obj [])
     ⟨404, notFoundText, "Not Found", "http://game"⟩ (by decide) rfl rfl
     (Or.inl (by decide)) (Or.inr ⟨[("message", .str "not found")], rfl⟩),
   C1_amended_http_error mockLoads net503down "http://game" "\x7b\x7d" none none (.obj [])
     ⟨503, "down", "Service Unavailable", "http://game"⟩ (by decide) rfl rfl
     (Or.inr (by decide)) (Or.inl ⟨"Expecting value: line 1 column 1 (char 0)", rfl⟩)⟩

/-- Every normal return of the `try` body satisfies: success is set
exactly when no error message is set. -/
theorem runBody_ok_inv (jl : Loads) (net : Net) (ep pay : PyValue)
    (hd : Headers) (tm : Int) (r : ActionResult)
    (h : runBody jl net ep pay hd tm = .ok r) :
    r.success = true ↔ r.error_message = none := by
  unfold runBody httpErrorBranch at h
  repeat' split at h
  all_goals simp at h
  all_goals (subst h; simp [initResult])

/-- Every exception escaping the `try` body carries a record whose
success flag is still false. -/
theorem runBody_error_inv (jl : Loads) (net : Net) (ep pay : PyValue)
    (hd : Headers) (tm : Int) (e : PyExc) (r : ActionResult)
    (h : runBody jl net ep pay hd tm = .error (e, r)) :
    r.success = false := by
  unfold runBody httpErrorBranch at h
  repeat' split at h
  all_goals simp at h
  all_goals (obtain ⟨h1, h2⟩ := h; subst h2; simp [initResult])

/-- C6 counterexample: the claim that a result never has both
error_message and response_data populated fails on a 404 whose body
decodes as JSON: the source stores the decoded error body in
`response_data` (line 118) while `error_message` (line 115) is set. -/
theorem C6_counterexample :
    (runRecord mockLoads net404msg (.pyStr "http://game") (.pyStr "\x7b\x7d") none none).error_message =
      some "Client error (HTTP 404): not found" ∧
    (runRecord mockLoads net404msg (.pyStr "http://game") (.pyStr "\x7b\x7d") none none).response_data =
      some (.obj [("message", .str "not found")]) :=
  ⟨rfl, rfl⟩

/-- C6 (amended): the invariant that does hold is about
success/error_message, not response_data: every result populates
error_message exactly when success is false (an HTTP error result may
carry the decoded error body in response_data alongside its error
message). -/
theorem C6_amended_success_iff_no_error (jl : Loads) (net : Net) (ep pay : PyValue)
    (hs : Option Headers) (tmo : Option Int) :
    (runRecord jl net ep pay hs tmo).success = true ↔
      (runRecord jl net ep pay hs tmo).error_message = none := by
  unfold runRecord
  rcases hrb : runBody jl net ep pay (resolveHeaders hs) (resolveTimeout tmo) with ⟨e, r⟩ | r
  · have hsucc := runBody_error_inv jl net ep pay _ _ e r hrb
    simp only [hrb]
    cases e <;> simp [handleExc, hsucc]
  · have hiff := runBody_ok_inv jl net ep pay _ _ r hrb
    simp only [hrb]
    exact hiff

/-- C4 counterexample: a mocked 404 from the music endpoint. The claim
says a non-2xx response is raised/propagated to the caller, but the
`HTTPError` raised by `raise_for_status` is itself a
`RequestException`, so the `except` clause of the source catches it and
the forwarder returns normally with a JSON `error` object built from
the `HTTPError` text — an `Except.ok` value, not a propagated
exception. -/
theorem C4_counterexample :
    MusicGeneratorTool_run netMusic404 "boss fight" =
      .ok (jsonDumpCompact (.obj [("error",
        .str ("404 Client Error: NOT FOUND for url: " ++ musicUrl))])) := rfl

/-- C4 (amended): the forwarder returns a JSON-encoded error object
for every requests-level transport failure AND for every 400-599
response (whose `raise_for_status` exception is a `RequestException`
and is caught by the same handler, rather than propagating); it
returns the raw upstream body verbatim for any other status, 2xx
included; only an exception outside the `RequestException` hierarchy
propagates to the caller. -/
theorem C4_amended_forwarder (net : Net) (gs : String) :
    MusicGeneratorTool_run net gs =
      match net musicUrl (musicBody gs) [("Content-Type", "application/json")] 60 with
      | .error e =>
        if isRequestExc e then
          .ok (jsonDumpCompact (.obj [("error", .str (excDetail e))]))
        else .error e
      | .ok resp =>
        if 400 ≤ resp.status_code ∧ resp.status_code ≤ 499 then
          .ok (jsonDumpCompact (.obj [("error",
            .str (toString resp.status_code ++ " Client Error: " ++ resp.reason ++ " for url: " ++ resp.url))]))
        else if 500 ≤ resp.status_code ∧ resp.status_code ≤ 599 then
          .ok (jsonDumpCompact (.obj [("error",
            .str (toString resp.status_code ++ " Server Error: " ++ resp.reason ++ " for url: " ++ resp.url))]))
        else
          .ok resp.text := by
  unfold MusicGeneratorTool_run musicTryBody raiseForStatus
  rcases hn : net musicUrl (musicBody gs) [("Content-Type", "application/json")] 60 with e | resp
  · simp
  · by_cases h4 : 400 ≤ resp.status_code ∧ resp.status_code ≤ 499
    · simp [h4, isRequestExc, excDetail]
    · by_cases h5 : 500 ≤ resp.status_code ∧ resp.status_code ≤ 599
      · simp [h4, h5, isRequestExc, excDetail]
      · simp [h4, h5]
